import Mathlib

/-!
Verification development for the QBO ETL pipeline (BBS-QBO-Pipeline).

Shallow embedding of the data-shaping core:
* `src/extract/report_extractor.py` — recursive report-tree flattener;
* `src/transform/flatteners.py` — line-item flatteners;
* `src/transform/schema_mapper.py` — record mappers;
* `src/transform/data_quality.py` — type coercion / dedup;
* `src/extract/entity_extractor.py` — per-table failure isolation;
* `src/load/sql_loader.py`, `src/orchestrator/pipeline.py` — upsert and run.

Python JSON values are modelled by the inductive type `JVal`; Python dict
`.get` (an `AttributeError` on a non-dict receiver), bracket indexing
(`KeyError` / `IndexError`), and truthiness are modelled explicitly, so that
code that can raise is `Except`-valued.
-/

/-- A Python/JSON value as handled by the pipeline. Objects are modelled as
association lists with distinct keys in insertion order (Python dicts). -/
inductive JVal where
  | null
  | bool (b : Bool)
  | num (n : Int)
  | str (s : String)
  | arr (elems : List JVal)
  | obj (fields : List (String × JVal))
deriving Repr

mutual

/-- Structural decidable equality for `JVal` (the derive handler does not
support this nested inductive, so it is written out). -/
def decEqJ : (a b : JVal) → Decidable (a = b)
  | .null, .null => isTrue rfl
  | .bool a, .bool b =>
    if h : a = b then isTrue (h ▸ rfl) else isFalse (fun he => h (by injection he))
  | .num a, .num b =>
    if h : a = b then isTrue (h ▸ rfl) else isFalse (fun he => h (by injection he))
  | .str a, .str b =>
    if h : a = b then isTrue (h ▸ rfl) else isFalse (fun he => h (by injection he))
  | .arr xs, .arr ys =>
    match decEqLJ xs ys with
    | isTrue h => isTrue (h ▸ rfl)
    | isFalse h => isFalse (fun he => h (by injection he))
  | .obj xs, .obj ys =>
    match decEqLO xs ys with
    | isTrue h => isTrue (h ▸ rfl)
    | isFalse h => isFalse (fun he => h (by injection he))
  | .null, .bool _ => isFalse (fun h => JVal.noConfusion h)
  | .null, .num _ => isFalse (fun h => JVal.noConfusion h)
  | .null, .str _ => isFalse (fun h => JVal.noConfusion h)
  | .null, .arr _ => isFalse (fun h => JVal.noConfusion h)
  | .null, .obj _ => isFalse (fun h => JVal.noConfusion h)
  | .bool _, .null => isFalse (fun h => JVal.noConfusion h)
  | .bool _, .num _ => isFalse (fun h => JVal.noConfusion h)
  | .bool _, .str _ => isFalse (fun h => JVal.noConfusion h)
  | .bool _, .arr _ => isFalse (fun h => JVal.noConfusion h)
  | .bool _, .obj _ => isFalse (fun h => JVal.noConfusion h)
  | .num _, .null => isFalse (fun h => JVal.noConfusion h)
  | .num _, .bool _ => isFalse (fun h => JVal.noConfusion h)
  | .num _, .str _ => isFalse (fun h => JVal.noConfusion h)
  | .num _, .arr _ => isFalse (fun h => JVal.noConfusion h)
  | .num _, .obj _ => isFalse (fun h => JVal.noConfusion h)
  | .str _, .null => isFalse (fun h => JVal.noConfusion h)
  | .str _, .bool _ => isFalse (fun h => JVal.noConfusion h)
  | .str _, .num _ => isFalse (fun h => JVal.noConfusion h)
  | .str _, .arr _ => isFalse (fun h => JVal.noConfusion h)
  | .str _, .obj _ => isFalse (fun h => JVal.noConfusion h)
  | .arr _, .null => isFalse (fun h => JVal.noConfusion h)
  | .arr _, .bool _ => isFalse (fun h => JVal.noConfusion h)
  | .arr _, .num _ => isFalse (fun h => JVal.noConfusion h)
  | .arr _, .str _ => isFalse (fun h => JVal.noConfusion h)
  | .arr _, .obj _ => isFalse (fun h => JVal.noConfusion h)
  | .obj _, .null => isFalse (fun h => JVal.noConfusion h)
  | .obj _, .bool _ => isFalse (fun h => JVal.noConfusion h)
  | .obj _, .num _ => isFalse (fun h => JVal.noConfusion h)
  | .obj _, .str _ => isFalse (fun h => JVal.noConfusion h)
  | .obj _, .arr _ => isFalse (fun h => JVal.noConfusion h)

def decEqLJ : (xs ys : List JVal) → Decidable (xs = ys)
  | [], [] => isTrue rfl
  | [], _ :: _ => isFalse (fun h => List.noConfusion h)
  | _ :: _, [] => isFalse (fun h => List.noConfusion h)
  | x :: xs, y :: ys =>
    match decEqJ x y with
    | isFalse h1 => isFalse (fun he => h1 (by injection he))
    | isTrue h1 =>
      match decEqLJ xs ys with
      | isTrue h2 => isTrue (by rw [h1, h2])
      | isFalse h2 => isFalse (fun he => h2 (by injection he))

def decEqLO : (xs ys : List (String × JVal)) → Decidable (xs = ys)
  | [], [] => isTrue rfl
  | [], _ :: _ => isFalse (fun h => List.noConfusion h)
  | _ :: _, [] => isFalse (fun h => List.noConfusion h)
  | (k1, v1) :: xs, (k2, v2) :: ys =>
    if hk : k1 = k2 then
      match decEqJ v1 v2 with
      | isFalse h1 => isFalse (fun he => by injection he with h3 h4; exact h1 (congrArg Prod.snd h3))
      | isTrue h1 =>
        match decEqLO xs ys with
        | isTrue h2 => isTrue (by rw [hk, h1, h2])
        | isFalse h2 => isFalse (fun he => h2 (by injection he))
    else isFalse (fun he => by injection he with h3 _; exact hk (congrArg Prod.fst h3))

end

instance : DecidableEq JVal := decEqJ

/-- First-match lookup in an association list (Python dict keys are unique,
so first match is the stored value). -/
def lookupKey (fields : List (String × JVal)) (k : String) : Option JVal :=
  match fields with
  | [] => none
  | (k', v) :: rest => if k' = k then some v else lookupKey rest k

/-- Python `x.get(k, dflt)`: on a dict returns the stored value (even `None`)
or the default; on any non-dict receiver raises `AttributeError`. -/
def dget (j : JVal) (k : String) (dflt : JVal) : Except String JVal :=
  match j with
  | .obj fields => .ok ((lookupKey fields k).getD dflt)
  | _ => .error "AttributeError: get"

/-- Python truthiness of a JSON value. -/
def truthy (j : JVal) : Bool :=
  match j with
  | .null => false
  | .bool b => b
  | .num n => n != 0
  | .str s => s != ""
  | .arr elems => !elems.isEmpty
  | .obj fields => !fields.isEmpty

/-- Python `a or b`. -/
def pyOr (a b : JVal) : JVal :=
  if truthy a then a else b

/-- Python `xs[i]` on a list: raises on out-of-range or non-list receiver. -/
def aidx (j : JVal) (i : Nat) : Except String JVal :=
  match j with
  | .arr elems =>
    match elems.get? i with
    | some v => .ok v
    | none => .error "IndexError"
  | _ => .error "TypeError: not subscriptable"

/-- Python `d[k]` on a dict: raises `KeyError` when the key is missing and
`TypeError` on a non-dict receiver. -/
def oidx (j : JVal) (k : String) : Except String JVal :=
  match j with
  | .obj fields =>
    match lookupKey fields k with
    | some v => .ok v
    | none => .error ("KeyError: " ++ k)
  | _ => .error "TypeError: not subscriptable"

/-- Python `for x in v`: the flatteners iterate `Line` arrays; a non-list
value is a `TypeError` (string iteration is not exercised by this data). -/
def asList (j : JVal) : Except String (List JVal) :=
  match j with
  | .arr elems => .ok elems
  | _ => .error "TypeError: not iterable"

/-! ## Report tree flattener (`src/extract/report_extractor.py`) -/

/-- One cell of a report row: models a `ColData` entry dict, of which the
code reads only `cd.get("value", "")`.  `none` models an absent `value` key. -/
structure RCell where
  value : Option String
deriving Repr, DecidableEq

/-- One node of the nested `Rows.Row` report tree, with exactly the fields
`_extract_rows` reads: the `type` tag, the header's `ColData` (`none` models
a falsy/absent `Header` dict), the nested `Rows.Row` list, the summary's
`ColData` (`none` models a falsy/absent `Summary` dict), and the node's own
`ColData` (`none` models an absent `ColData` key). -/
inductive RNode where
  | mk (rtype : String) (header : Option (List RCell)) (subRows : List RNode)
       (summary : Option (List RCell)) (colData : Option (List RCell))
deriving Repr

/-- One flattened output row: the positionally aligned value columns, plus
the three injected metadata columns `_section`, `_row_type`, `_report_name`
(kept as separate fields; no report column title starts with `_`). -/
structure ReportRow where
  values : List (String × String)
  sectionCtx : String
  rowType : String
  reportName : String
deriving Repr, DecidableEq

/-- `{col_names[i]: cd.get("value", "") for i, cd in enumerate(col_data)
if i < len(col_names)}`: positional alignment, truncating at the shorter
list in either direction. -/
def alignCells (colNames : List String) (colData : List RCell) :
    List (String × String) :=
  (colNames.zip colData).map fun p => (p.1, p.2.value.getD "")

/-- Python dict construction from an ordered pair sequence: later assignments
to the same key overwrite the value in place (first-occurrence position). -/
def setKey (d : List (String × String)) (k : String) (v : String) :
    List (String × String) :=
  if (d.find? fun p => p.1 = k).isSome then
    d.map fun p => if p.1 = k then (k, v) else p
  else d ++ [(k, v)]

/-- Fold a pair sequence into a Python-dict association list. -/
def dictOfPairs (ps : List (String × String)) : List (String × String) :=
  ps.foldl (fun acc p => setKey acc p.1 p.2) []

/-- Section name from a section header: first `ColData` cell's `value`
(empty string when the header is falsy, has no cells, or the cell has no
`value` key). -/
def sectionNameOf (header : Option (List RCell)) : String :=
  match header with
  | none => ""
  | some [] => ""
  | some (c :: _) => c.value.getD ""

/-- The `Summary` row emitted after a section's children, when the section's
`Summary` dict is truthy. -/
def summaryRowsOf (summary : Option (List RCell)) (sname : String)
    (colNames : List String) (reportName : String) : List ReportRow :=
  match summary with
  | none => []
  | some cd => [⟨dictOfPairs (alignCells colNames cd), sname, "Summary", reportName⟩]

mutual

/-- `_extract_rows` loop body for one row node. -/
def extractNode (colNames : List String) (reportName : String) :
    RNode → String → List ReportRow
  | RNode.mk rtype header subRows summary colData, sectionCtx =>
    if rtype = "Section" then
      let sname := sectionNameOf header
      extractList colNames reportName subRows sname
        ++ summaryRowsOf summary sname colNames reportName
    else if rtype = "Data" ∨ colData.isSome then
      [⟨dictOfPairs (alignCells colNames (colData.getD [])), sectionCtx,
        "Data", reportName⟩]
    else []

/-- `_extract_rows`: process a row list in order, appending each node's
output (the Python version appends into a shared output list). -/
def extractList (colNames : List String) (reportName : String) :
    List RNode → String → List ReportRow
  | [], _ => []
  | n :: rest, sectionCtx =>
    extractNode colNames reportName n sectionCtx
      ++ extractList colNames reportName rest sectionCtx

end

/-- One declared report column, of which the code reads
`c.get("ColTitle", f"col_{i}")`. -/
structure RColumn where
  colTitle : Option String
deriving Repr, DecidableEq

/-- The report payload fields read by `flatten_report_rows`: `none` at the
top models a falsy `report_data`.  (`Header.StartPeriod` / `EndPeriod` are
read into local variables by the source but never used.) -/
structure ReportData where
  reportName : Option String
  columns : List RColumn
  rows : List RNode

/-- Column titles with the `col_<index>` fallback for an absent `ColTitle`. -/
def colNamesOf (columns : List RColumn) : List String :=
  columns.enum.map fun p => p.2.colTitle.getD ("col_" ++ toString p.1)

/-- `flatten_report_rows`. -/
def flatten_report_rows (reportData : Option ReportData) : List ReportRow :=
  match reportData with
  | none => []
  | some rd =>
    extractList (colNamesOf rd.columns) (rd.reportName.getD "Unknown") rd.rows ""

/-! ## Line-item flatteners (`src/transform/flatteners.py`)

Each flattened line row is a Python dict with fixed keys; it is modelled as
an association list in the source's key order. `Except`-valued results model
the exceptions the Python can raise (`KeyError` on `linked[0]["TxnId"]`,
`AttributeError` on `.get` of a non-dict detail object). -/

abbrev LineRow := List (String × JVal)

/-- Python `detail_type in ("SubTotalLineDetail", "DiscountLineDetail")`:
non-string discriminants never compare equal to these literals. -/
def isSkipDetailType (v : JVal) : Bool :=
  match v with
  | .str s => s == "SubTotalLineDetail" || s == "DiscountLineDetail"
  | _ => false

/-- Python dict mutation `row[k] = v`: update in place (or append). -/
def setField (r : LineRow) (k : String) (v : JVal) : LineRow :=
  if (r.find? fun p => p.1 = k).isSome then
    r.map fun p => if p.1 = k then (k, v) else p
  else r ++ [(k, v)]

/-- A sequence of Python dict mutations applied in order. -/
def setFields (r : LineRow) (updates : List (String × JVal)) : LineRow :=
  updates.foldl (fun acc p => setField acc p.1 p.2) r

/-- Loop body of `flatten_invoice_lines` for one `line` dict: `none` models
`continue` (no row emitted), `error` a raised exception. -/
def flattenInvoiceLine (invoiceId : JVal) (line : JVal) :
    Except String (Option LineRow) := do
  let detailType ← dget line "DetailType" (.str "")
  if isSkipDetailType detailType then
    return none
  let detail ← dget line "SalesItemLineDetail" (.obj [])
  let itemRef ← dget detail "ItemRef" (.obj [])
  let accountRef ← dget detail "ItemAccountRef" (.obj [])
  let linked ← dget line "LinkedTxn" (.arr [])
  let lineId ← dget line "Id" .null
  let lineNum ← dget line "LineNum" .null
  let descr ← dget line "Description" .null
  let amount ← dget line "Amount" .null
  let qty ← dget detail "Qty" .null
  let unitPrice ← dget detail "UnitPrice" .null
  let itemId ← dget itemRef "value" .null
  let itemName ← dget itemRef "name" .null
  let accountId ← dget accountRef "value" .null
  let accountName ← dget accountRef "name" .null
  let taxRef ← dget detail "TaxCodeRef" (.obj [])
  let taxCodeRef ← dget taxRef "value" .null
  let serviceDate ← dget detail "ServiceDate" .null
  let linkedTxnId ←
    if truthy linked then aidx linked 0 >>= fun e => oidx e "TxnId"
    else pure .null
  let linkedTxnType ←
    if truthy linked then aidx linked 0 >>= fun e => oidx e "TxnType"
    else pure .null
  return some [("invoice_id", invoiceId), ("line_id", lineId),
    ("line_num", lineNum), ("description", descr), ("amount", amount),
    ("quantity", qty), ("unit_price", unitPrice), ("item_id", itemId),
    ("item_name", itemName), ("account_id", accountId),
    ("account_name", accountName), ("tax_code_ref", taxCodeRef),
    ("service_date", serviceDate), ("detail_type", detailType),
    ("linked_txn_id", linkedTxnId), ("linked_txn_type", linkedTxnType)]

/-- Run a per-line body over a `Line` array, collecting emitted rows. -/
def collectLines (f : JVal → Except String (Option LineRow)) :
    List JVal → Except String (List LineRow)
  | [] => .ok []
  | l :: ls => do
    let row? ← f l
    let rest ← collectLines f ls
    match row? with
    | some row => .ok (row :: rest)
    | none => .ok rest

/-- `flatten_invoice_lines`. -/
def flatten_invoice_lines : List JVal → Except String (List LineRow)
  | [] => .ok []
  | inv :: rest => do
    let invoiceId ← dget inv "Id" .null
    let linesV ← dget inv "Line" (.arr [])
    let lns ← asList linesV
    let rows ← collectLines (flattenInvoiceLine invoiceId) lns
    let restRows ← flatten_invoice_lines rest
    .ok (rows ++ restRows)

/-- Loop body of `flatten_bill_lines` for one `line` dict. -/
def flattenBillLine (billId : JVal) (line : JVal) :
    Except String (Option LineRow) := do
  let detailType ← dget line "DetailType" (.str "")
  let lineId ← dget line "Id" .null
  let lineNum ← dget line "LineNum" .null
  let descr ← dget line "Description" .null
  let amount ← dget line "Amount" .null
  let row : LineRow := [("bill_id", billId), ("line_id", lineId),
    ("line_num", lineNum), ("description", descr), ("amount", amount),
    ("detail_type", detailType), ("quantity", .null), ("unit_price", .null),
    ("item_id", .null), ("item_name", .null), ("account_id", .null),
    ("account_name", .null), ("billable_status", .null),
    ("customer_id", .null), ("customer_name", .null), ("tax_code_ref", .null)]
  if detailType = JVal.str "ItemBasedExpenseLineDetail" then
    let detail ← dget line "ItemBasedExpenseLineDetail" (.obj [])
    let itemRef ← dget detail "ItemRef" (.obj [])
    let qty ← dget detail "Qty" .null
    let unitPrice ← dget detail "UnitPrice" .null
    let itemId ← dget itemRef "value" .null
    let itemName ← dget itemRef "name" .null
    let billable ← dget detail "BillableStatus" .null
    let taxRef ← dget detail "TaxCodeRef" (.obj [])
    let taxCodeRef ← dget taxRef "value" .null
    let cust ← dget detail "CustomerRef" (.obj [])
    let custId ← dget cust "value" .null
    let custName ← dget cust "name" .null
    return some (setFields row [("quantity", qty), ("unit_price", unitPrice),
      ("item_id", itemId), ("item_name", itemName),
      ("billable_status", billable), ("tax_code_ref", taxCodeRef),
      ("customer_id", custId), ("customer_name", custName)])
  else if detailType = JVal.str "AccountBasedExpenseLineDetail" then
    let detail ← dget line "AccountBasedExpenseLineDetail" (.obj [])
    let acctRef ← dget detail "AccountRef" (.obj [])
    let accountId ← dget acctRef "value" .null
    let accountName ← dget acctRef "name" .null
    let billable ← dget detail "BillableStatus" .null
    let taxRef ← dget detail "TaxCodeRef" (.obj [])
    let taxCodeRef ← dget taxRef "value" .null
    let cust ← dget detail "CustomerRef" (.obj [])
    let custId ← dget cust "value" .null
    let custName ← dget cust "name" .null
    return some (setFields row [("account_id", accountId),
      ("account_name", accountName), ("billable_status", billable),
      ("tax_code_ref", taxCodeRef), ("customer_id", custId),
      ("customer_name", custName)])
  else
    return none

/-- `flatten_bill_lines`. -/
def flatten_bill_lines : List JVal → Except String (List LineRow)
  | [] => .ok []
  | bill :: rest => do
    let billId ← dget bill "Id" .null
    let linesV ← dget bill "Line" (.arr [])
    let lns ← asList linesV
    let rows ← collectLines (flattenBillLine billId) lns
    let restRows ← flatten_bill_lines rest
    .ok (rows ++ restRows)

/-- Loop body of `flatten_purchase_lines` for one `line` dict
(same detail dispatch as bills; no `line_num`, `unit_price`, `quantity`,
or `customer_name` columns). -/
def flattenPurchaseLine (purchaseId : JVal) (line : JVal) :
    Except String (Option LineRow) := do
  let detailType ← dget line "DetailType" (.str "")
  let lineId ← dget line "Id" .null
  let descr ← dget line "Description" .null
  let amount ← dget line "Amount" .null
  let row : LineRow := [("purchase_id", purchaseId), ("line_id", lineId),
    ("description", descr), ("amount", amount), ("detail_type", detailType),
    ("item_id", .null), ("item_name", .null), ("account_id", .null),
    ("account_name", .null), ("billable_status", .null),
    ("customer_id", .null), ("tax_code_ref", .null)]
  if detailType = JVal.str "ItemBasedExpenseLineDetail" then
    let detail ← dget line "ItemBasedExpenseLineDetail" (.obj [])
    let itemRef ← dget detail "ItemRef" (.obj [])
    let itemId ← dget itemRef "value" .null
    let itemName ← dget itemRef "name" .null
    let billable ← dget detail "BillableStatus" .null
    let taxRef ← dget detail "TaxCodeRef" (.obj [])
    let taxCodeRef ← dget taxRef "value" .null
    let cust ← dget detail "CustomerRef" (.obj [])
    let custId ← dget cust "value" .null
    return some (setFields row [("item_id", itemId), ("item_name", itemName),
      ("billable_status", billable), ("tax_code_ref", taxCodeRef),
      ("customer_id", custId)])
  else if detailType = JVal.str "AccountBasedExpenseLineDetail" then
    let detail ← dget line "AccountBasedExpenseLineDetail" (.obj [])
    let acctRef ← dget detail "AccountRef" (.obj [])
    let accountId ← dget acctRef "value" .null
    let accountName ← dget acctRef "name" .null
    let billable ← dget detail "BillableStatus" .null
    let taxRef ← dget detail "TaxCodeRef" (.obj [])
    let taxCodeRef ← dget taxRef "value" .null
    let cust ← dget detail "CustomerRef" (.obj [])
    let custId ← dget cust "value" .null
    return some (setFields row [("account_id", accountId),
      ("account_name", accountName), ("billable_status", billable),
      ("tax_code_ref", taxCodeRef), ("customer_id", custId)])
  else
    return none

/-- `flatten_purchase_lines`. -/
def flatten_purchase_lines : List JVal → Except String (List LineRow)
  | [] => .ok []
  | pur :: rest => do
    let purchaseId ← dget pur "Id" .null
    let linesV ← dget pur "Line" (.arr [])
    let lns ← asList linesV
    let rows ← collectLines (flattenPurchaseLine purchaseId) lns
    let restRows ← flatten_purchase_lines rest
    .ok (rows ++ restRows)

/-- Loop body of `flatten_estimate_lines` for one `line` dict (like the
invoice body, without the linked-transaction and service-date columns). -/
def flattenEstimateLine (estimateId : JVal) (line : JVal) :
    Except String (Option LineRow) := do
  let detailType ← dget line "DetailType" (.str "")
  if isSkipDetailType detailType then
    return none
  let detail ← dget line "SalesItemLineDetail" (.obj [])
  let itemRef ← dget detail "ItemRef" (.obj [])
  let accountRef ← dget detail "ItemAccountRef" (.obj [])
  let lineId ← dget line "Id" .null
  let lineNum ← dget line "LineNum" .null
  let descr ← dget line "Description" .null
  let amount ← dget line "Amount" .null
  let qty ← dget detail "Qty" .null
  let unitPrice ← dget detail "UnitPrice" .null
  let itemId ← dget itemRef "value" .null
  let itemName ← dget itemRef "name" .null
  let accountId ← dget accountRef "value" .null
  let accountName ← dget accountRef "name" .null
  let taxRef ← dget detail "TaxCodeRef" (.obj [])
  let taxCodeRef ← dget taxRef "value" .null
  return some [("estimate_id", estimateId), ("line_id", lineId),
    ("line_num", lineNum), ("description", descr), ("amount", amount),
    ("quantity", qty), ("unit_price", unitPrice), ("item_id", itemId),
    ("item_name", itemName), ("account_id", accountId),
    ("account_name", accountName), ("tax_code_ref", taxCodeRef),
    ("detail_type", detailType)]

/-- `flatten_estimate_lines`. -/
def flatten_estimate_lines : List JVal → Except String (List LineRow)
  | [] => .ok []
  | est :: rest => do
    let estimateId ← dget est "Id" .null
    let linesV ← dget est "Line" (.arr [])
    let lns ← asList linesV
    let rows ← collectLines (flattenEstimateLine estimateId) lns
    let restRows ← flatten_estimate_lines rest
    .ok (rows ++ restRows)

/-! ## Record mapper (`src/transform/schema_mapper.py`, `map_customer`) -/

/-- `map_customer` loop body for one record: nested reference objects are
read through `(r.get(...) or {}).get(...)` (and `r.get("BillAddr", {}) or {}`
for the billing address), so an absent or `None` reference degrades to `{}`
and the derived sub-field to `None`; a truthy non-dict reference raises. -/
def mapCustomerRecord (r : JVal) : Except String LineRow := do
  let billV ← dget r "BillAddr" (.obj [])
  let bill := pyOr billV (.obj [])
  let custId ← dget r "Id" .null
  let displayName ← dget r "DisplayName" .null
  let companyName ← dget r "CompanyName" .null
  let givenName ← dget r "GivenName" .null
  let familyName ← dget r "FamilyName" .null
  let emailRef ← dget r "PrimaryEmailAddr" .null
  let email ← dget (pyOr emailRef (.obj [])) "Address" .null
  let phoneRef ← dget r "PrimaryPhone" .null
  let phone ← dget (pyOr phoneRef (.obj [])) "FreeFormNumber" .null
  let city ← dget bill "City" .null
  let stateV ← dget bill "CountrySubDivisionCode" .null
  let postal ← dget bill "PostalCode" .null
  let isJob ← dget r "Job" (.bool false)
  let isActive ← dget r "Active" (.bool true)
  let balance ← dget r "Balance" (.num 0)
  let parentRef ← dget r "ParentRef" .null
  let parentId ← dget (pyOr parentRef (.obj [])) "value" .null
  return [("customer_id", custId), ("display_name", displayName),
    ("company_name", companyName), ("given_name", givenName),
    ("family_name", familyName), ("email", email), ("phone", phone),
    ("billing_city", city), ("billing_state", stateV),
    ("billing_postal_code", postal), ("is_job", isJob),
    ("is_active", isActive), ("balance", balance),
    ("parent_customer_id", parentId)]

/-- `map_customer`. -/
def map_customer : List JVal → Except String (List LineRow)
  | [] => .ok []
  | r :: rest => do
    let row ← mapCustomerRecord r
    let restRows ← map_customer rest
    .ok (row :: restRows)

/-! ## Data quality (`src/transform/data_quality.py`) -/

/-- Python `==` between scalar values (as used by dict-key lookup in
`Series.map({...})`): `True == 1`, `False == 0`, `None == None`. -/
def pyEq (a b : JVal) : Bool :=
  match a, b with
  | .null, .null => true
  | .bool x, .bool y => x == y
  | .bool x, .num n => (if x then (1 : Int) else 0) == n
  | .num n, .bool y => n == (if y then (1 : Int) else 0)
  | .num x, .num y => x == y
  | .str x, .str y => x == y
  | _, _ => false

/-- The literal dict of the `bool` branch of `enforce_types`:
`{True: True, False: False, "true": True, "false": False,
"True": True, "False": False}`. -/
def boolLiteralMap : List (JVal × Bool) :=
  [(.bool true, true), (.bool false, false), (.str "true", true),
   (.str "false", false), (.str "True", true), (.str "False", false)]

/-- Dict lookup of a cell value in `boolLiteralMap` under Python key
equality (the map step of `df[col].map({...})`; an unmatched value becomes
missing). -/
def boolMapLookup (v : JVal) : Option Bool :=
  (boolLiteralMap.find? fun p => pyEq v p.1).map (·.2)

/-- One cell through the `bool` branch of `enforce_types`:
`df[col].map({...}).fillna(False)` — a missing/unmatched value (including
null) becomes the boolean `False`, never null. -/
def boolCoerce (v : JVal) : JVal :=
  .bool ((boolMapLookup v).getD false)

/-- A whole column declared `"bool"` through `enforce_types`. -/
def enforce_bool_column (col : List JVal) : List JVal :=
  col.map boolCoerce

/-- A `JVal` that can occur as a cell of a mapped DataFrame column (the
scalar values; list/dict cells are unhashable as Python dict probes and do
not occur in type-ruled columns). -/
def isScalar (v : JVal) : Bool :=
  match v with
  | .null => true
  | .bool _ => true
  | .num _ => true
  | .str _ => true
  | .arr _ => false
  | .obj _ => false

/-- The tuple of key-column values of one row (`drop_duplicates(subset=...)`
row identity). -/
def keyTupleOf (r : LineRow) (keys : List String) : List (Option JVal) :=
  keys.map (lookupKey r)

/-- `df.drop_duplicates(subset=key_columns, keep="last")`: a row is kept iff
no later row has the same key tuple; input order of the kept rows is
preserved. -/
def dropDupKeepLast (keys : List String) : List LineRow → List LineRow
  | [] => []
  | r :: rest =>
    if rest.any (fun r2 => decide (keyTupleOf r2 keys = keyTupleOf r keys)) then
      dropDupKeepLast keys rest
    else
      r :: dropDupKeepLast keys rest

/-- `deduplicate`: no-op on an empty key list or empty input. -/
def deduplicate (rows : List LineRow) (keys : List String) : List LineRow :=
  if keys.isEmpty || rows.isEmpty then rows
  else dropDupKeepLast keys rows

/-- The last row of `rows` whose key tuple is `k` (the occurrence that
`keep="last"` retains). -/
def lastWithKey (keys : List String) (k : List (Option JVal)) :
    List LineRow → Option LineRow
  | [] => none
  | r :: rest =>
    match lastWithKey keys k rest with
    | some r' => some r'
    | none => if keyTupleOf r keys = k then some r else none

/-! ## Entity and report extraction
(`src/extract/entity_extractor.py`, `src/extract/report_extractor.py`) -/

/-- `config.tables.ENTITY_TABLES`, in declared order. -/
def ENTITY_TABLES : List String :=
  ["Customer", "Invoice", "Payment", "Vendor", "Employee", "Estimate",
   "Bill", "Purchase", "Item", "Account", "Department", "Class",
   "BillPayment", "Deposit", "CreditMemo", "RefundReceipt", "SalesReceipt",
   "JournalEntry", "Transfer", "TaxCode", "TaxRate", "Term",
   "PaymentMethod", "CompanyInfo"]

/-- The keys of `config.tables.REPORT_ENDPOINTS`, in declared order. -/
def REPORT_ENDPOINT_NAMES : List String :=
  ["ProfitAndLoss", "ProfitAndLossCash", "BalanceSheet", "CashFlow",
   "AgedReceivables", "AgedReceivableDetail", "AgedPayables",
   "AgedPayableDetail", "TrialBalance"]

/-- First-match lookup in a generic association list keyed by strings. -/
def lookupTable {α : Type} (l : List (String × α)) (k : String) : Option α :=
  match l with
  | [] => none
  | (k', v) :: rest => if k' = k then some v else lookupTable rest k

/-- `extract_all_entities` loop over a table list: the fetcher
(`qbo.query_all`, or `qbo.get_company_info` for `CompanyInfo`) is the
external collaborator and may fail; a failure is logged and the table's
result becomes `[]`.  Returns the results dict (as an ordered association
list) and the log lines. -/
def extractEntitiesGo (queryAll : String → Except String (List JVal))
    (getCompanyInfo : Except String JVal) :
    List String → List (String × List JVal) × List String
  | [] => ([], [])
  | t :: ts =>
    let entry : List JVal × Option String :=
      if t = "CompanyInfo" then
        match getCompanyInfo with
        | .ok info => (if truthy info then [info] else [], none)
        | .error e => ([], some ("Failed to extract " ++ t ++ ": " ++ e))
      else
        match queryAll t with
        | .ok records => (records, none)
        | .error e => ([], some ("Failed to extract " ++ t ++ ": " ++ e))
    let rest := extractEntitiesGo queryAll getCompanyInfo ts
    ((t, entry.1) :: rest.1,
      ("Extracting entity: " ++ t) :: (entry.2.toList ++ rest.2))

/-- `extract_all_entities`. -/
def extract_all_entities (queryAll : String → Except String (List JVal))
    (getCompanyInfo : Except String JVal) :
    List (String × List JVal) × List String :=
  extractEntitiesGo queryAll getCompanyInfo ENTITY_TABLES

/-- `extract_all_reports` loop over the report names: `getReport` stands for
`qbo.get_report(config["path"], params)` (the date-range parameter assembly
passes through to the external collaborator); a failure is logged and the
report's payload becomes the empty dict `{}`. -/
def extractReportsGo (getReport : String → Except String JVal) :
    List String → List (String × JVal) × List String
  | [] => ([], [])
  | rname :: rest =>
    let entry : JVal × Option String :=
      match getReport rname with
      | .ok payload => (payload, none)
      | .error e =>
        (.obj [], some ("Failed to extract report " ++ rname ++ ": " ++ e))
    let restR := extractReportsGo getReport rest
    ((rname, entry.1) :: restR.1,
      ("Extracting report: " ++ rname) :: (entry.2.toList ++ restR.2))

/-- `extract_all_reports`. -/
def extract_all_reports (getReport : String → Except String JVal) :
    List (String × JVal) × List String :=
  extractReportsGo getReport REPORT_ENDPOINT_NAMES

/-! ## Loader and orchestrator
(`src/load/sql_loader.py`, `src/orchestrator/pipeline.py`)

The target database is a map from table name to its current contents
(`none` = the table does not exist yet).  `SQLLoader.upsert` with the
sqlite backend writes the batch with `to_sql(..., if_exists="replace")`:
the table's whole contents become exactly the batch. -/

/-- The relational store: table name to contents. -/
def DBState : Type := String → Option (List LineRow)

/-- `df.insert(0, "client_id", self.client_id)`: prepend the tenant column
to every row. -/
def addClientId (clientId : String) (r : LineRow) : LineRow :=
  ("client_id", JVal.str clientId) :: r

/-- `SQLLoader.upsert` (sqlite backend): an empty batch returns without
touching the table; otherwise the `client_id` column is added and
`_upsert_sqlite` replaces the whole table with the batch
(`to_sql(..., if_exists="replace")`). -/
def upsert (clientId : String) (db : DBState) (tableName : String)
    (df : List LineRow) : DBState :=
  if df.isEmpty then db
  else fun t =>
    if t = tableName then some (df.map (addClientId clientId)) else db t

/-- `run_pipeline_for_client`, batch view: phases 1-3 (extract, map,
enforce types, deduplicate, add date keys, flatten lines, flatten reports)
are pure functions of the upstream payloads, so a full run is the ordered
list of (target table, transformed batch) pairs those phases compute from
the upstream data, loaded by `loader.upsert` in sequence.  Identical
upstream data yields the identical `tableBatches` list. -/
def run_pipeline_for_client (clientId : String)
    (tableBatches : List (String × List LineRow)) (db : DBState) : DBState :=
  tableBatches.foldl (fun d p => upsert clientId d p.1 p.2) db

/-- The last non-empty batch a run writes to table `t` (empty batches are
skipped by `upsert`). -/
def lastNonEmptyBatch : List (String × List LineRow) → String →
    Option (List LineRow)
  | [], _ => none
  | p :: rest, t =>
    match lastNonEmptyBatch rest t with
    | some b => some b
    | none => if p.1 = t ∧ ¬p.2.isEmpty then some p.2 else none

/-! ## Theorems -/

/-- Claim C2: for a column declared boolean, `enforce_types` maps every
scalar value outside the six-literal set (including null/missing) to the
boolean `false` — never to null — and maps the six literals to their
corresponding booleans. -/
theorem enforce_types_bool_default :
    (∀ v : JVal, isScalar v = true →
      (∀ k ∈ boolLiteralMap, pyEq v k.1 = false) →
      boolCoerce v = .bool false)
    ∧ boolCoerce .null = .bool false
    ∧ boolCoerce (.bool true) = .bool true
    ∧ boolCoerce (.bool false) = .bool false
    ∧ boolCoerce (.str "true") = .bool true
    ∧ boolCoerce (.str "false") = .bool false
    ∧ boolCoerce (.str "True") = .bool true
    ∧ boolCoerce (.str "False") = .bool false
    ∧ (∀ col : List JVal, ∀ v ∈ enforce_bool_column col, ∃ b, v = .bool b) := by
  refine ⟨?_, rfl, rfl, rfl, rfl, rfl, rfl, rfl, ?_⟩
  · intro v _ h
    have h1 := h (.bool true, true) (by simp [boolLiteralMap])
    have h2 := h (.bool false, false) (by simp [boolLiteralMap])
    have h3 := h (.str "true", true) (by simp [boolLiteralMap])
    have h4 := h (.str "false", false) (by simp [boolLiteralMap])
    have h5 := h (.str "True", true) (by simp [boolLiteralMap])
    have h6 := h (.str "False", false) (by simp [boolLiteralMap])
    simp [boolCoerce, boolMapLookup, boolLiteralMap, List.find?,
      h1, h2, h3, h4, h5, h6]
  · intro col v hv
    simp only [enforce_bool_column, List.mem_map] at hv
    obtain ⟨w, -, rfl⟩ := hv
    exact ⟨_, rfl⟩

/-- Witness for C2 at the unrecognized value `"yes"`. -/
theorem enforce_types_bool_default_witness :
    isScalar (JVal.str "yes") = true
    ∧ (∀ k ∈ boolLiteralMap, pyEq (JVal.str "yes") k.1 = false)
    ∧ boolCoerce (JVal.str "yes") = .bool false :=
  ⟨rfl, by decide, enforce_types_bool_default.1 (JVal.str "yes") rfl (by decide)⟩

/-- Claim C9: with the sqlite backend, `SQLLoader.upsert` on a non-empty
batch replaces the target table's entire contents with the batch (each row
prefixed with the tenant's `client_id`), so rows previously loaded for other
tenants no longer exist in that table; other tables are untouched. -/
theorem upsert_sqlite_replaces :
    ∀ (clientId : String) (db : DBState) (tableName : String)
      (df : List LineRow), df.isEmpty = false →
      (upsert clientId db tableName df) tableName
          = some (df.map (addClientId clientId))
      ∧ ∀ t, t ≠ tableName → (upsert clientId db tableName df) t = db t := by
  intro clientId db tableName df h
  constructor
  · simp [upsert, h]
  · intro t ht
    simp [upsert, h, ht]

/-- Table state before the witness upsert: every table holds one row loaded
for another tenant. -/
def dbBefore : DBState :=
  fun _ => some [[("client_id", JVal.str "other"), ("account_id", JVal.str "9")]]

/-- Witness for C9: a one-row batch replaces `dim_account` entirely (the
other tenant's row is gone) and leaves `fact_invoice` alone. -/
theorem upsert_sqlite_replaces_witness :
    ([[("account_id", JVal.str "1")]] : List LineRow).isEmpty = false
    ∧ (upsert "c1" dbBefore "dim_account" [[("account_id", JVal.str "1")]])
        "dim_account"
        = some [[("client_id", JVal.str "c1"), ("account_id", JVal.str "1")]]
    ∧ (upsert "c1" dbBefore "dim_account" [[("account_id", JVal.str "1")]])
        "fact_invoice" = dbBefore "fact_invoice" :=
  ⟨rfl,
   (upsert_sqlite_replaces "c1" dbBefore "dim_account"
     [[("account_id", JVal.str "1")]] rfl).1,
   (upsert_sqlite_replaces "c1" dbBefore "dim_account"
     [[("account_id", JVal.str "1")]] rfl).2 "fact_invoice" (by decide)⟩

/-- A run writes table `t` to its last non-empty batch and leaves other
tables at their previous contents. -/
theorem run_batches_pointwise (clientId : String) :
    ∀ (tableBatches : List (String × List LineRow)) (db : DBState)
      (t : String),
      run_pipeline_for_client clientId tableBatches db t
        = match lastNonEmptyBatch tableBatches t with
          | some b => some (b.map (addClientId clientId))
          | none => db t := by
  intro tableBatches
  induction tableBatches with
  | nil => intro db t; rfl
  | cons p rest ih =>
    intro db t
    have step : run_pipeline_for_client clientId (p :: rest) db
        = run_pipeline_for_client clientId rest (upsert clientId db p.1 p.2) := rfl
    rw [step, ih]
    simp only [lastNonEmptyBatch]
    cases h : lastNonEmptyBatch rest t with
    | some b => rfl
    | none =>
      by_cases he : p.2.isEmpty
      · simp [upsert, he]
      · by_cases ht : p.1 = t
        · simp [upsert, he, ht]
        · have ht2 : t ≠ p.1 := fun hh => ht hh.symm
          simp [upsert, he, ht, ht2]

/-- Claim C8: running the full per-tenant pipeline twice against identical
upstream data (hence the identical table-batch list) leaves every target
table with exactly the row set of the first run — the second run introduces
no duplicates. -/
theorem pipeline_idempotent :
    ∀ (clientId : String) (tableBatches : List (String × List LineRow))
      (db : DBState),
      run_pipeline_for_client clientId tableBatches
          (run_pipeline_for_client clientId tableBatches db)
        = run_pipeline_for_client clientId tableBatches db := by
  intro clientId tableBatches db
  funext t
  rw [run_batches_pointwise clientId tableBatches
    (run_pipeline_for_client clientId tableBatches db) t]
  cases h : lastNonEmptyBatch tableBatches t with
  | some b =>
    rw [run_batches_pointwise clientId tableBatches db t, h]
  | none => rfl

/-- If `lastWithKey` finds nothing, no row has that key tuple. -/
theorem lastWithKey_none_forall (keys : List String) (k : List (Option JVal)) :
    ∀ rows, lastWithKey keys k rows = none →
      ∀ r ∈ rows, keyTupleOf r keys ≠ k := by
  intro rows
  induction rows with
  | nil => intro _ r hr; simp at hr
  | cons r0 rest ih =>
    intro h r hr
    simp only [lastWithKey] at h
    cases hrest : lastWithKey keys k rest with
    | some r' => rw [hrest] at h; exact absurd h (by simp)
    | none =>
      rw [hrest] at h
      rcases List.mem_cons.mp hr with hr0 | hrmem
      · subst hr0
        intro hk
        rw [if_pos hk] at h
        exact absurd h (by simp)
      · exact ih hrest r hrmem

/-- If no row has the key tuple, `lastWithKey` finds nothing. -/
theorem lastWithKey_eq_none (keys : List String) (k : List (Option JVal)) :
    ∀ rows, (∀ r ∈ rows, keyTupleOf r keys ≠ k) →
      lastWithKey keys k rows = none := by
  intro rows
  induction rows with
  | nil => intro _; rfl
  | cons r0 rest ih =>
    intro h
    simp only [lastWithKey]
    rw [ih fun r hr => h r (List.mem_cons_of_mem _ hr)]
    rw [if_neg (h r0 (List.mem_cons_self _ _))]

/-- Filter characterization of keep-last dedup: among rows with a given key
tuple, exactly the last input occurrence survives. -/
theorem dropDup_filter (keys : List String) (k : List (Option JVal)) :
    ∀ rows,
      (dropDupKeepLast keys rows).filter
          (fun r => decide (keyTupleOf r keys = k))
        = (lastWithKey keys k rows).toList := by
  intro rows
  induction rows with
  | nil => rfl
  | cons r rest ih =>
    simp only [dropDupKeepLast]
    by_cases hany :
        rest.any (fun r2 => decide (keyTupleOf r2 keys = keyTupleOf r keys))
    · rw [if_pos hany, ih]
      simp only [lastWithKey]
      cases hrest : lastWithKey keys k rest with
      | some r' => rfl
      | none =>
        have hk : keyTupleOf r keys ≠ k := by
          intro hk
          rw [List.any_eq_true] at hany
          obtain ⟨r2, hr2mem, hr2⟩ := hany
          exact lastWithKey_none_forall keys k rest hrest r2 hr2mem
            (by rw [of_decide_eq_true hr2, hk])
        rw [if_neg hk]
    · rw [if_neg hany, List.filter_cons]
      by_cases hk : keyTupleOf r keys = k
      · have hnone : lastWithKey keys k rest = none := by
          apply lastWithKey_eq_none
          intro r2 hr2 hkr2
          apply hany
          rw [List.any_eq_true]
          exact ⟨r2, hr2, by rw [hkr2, hk]; exact decide_eq_true rfl⟩
        simp only [lastWithKey, hnone, if_pos hk]
        simp [hk, ih, hnone]
      · simp only [lastWithKey]
        cases hrest : lastWithKey keys k rest with
        | some r' => simp [hk, ih, hrest]
        | none => simp [hk, ih, hrest]

/-- Keep-last dedup only removes rows (output is a subsequence). -/
theorem dropDup_sublist (keys : List String) :
    ∀ rows, (dropDupKeepLast keys rows).Sublist rows := by
  intro rows
  induction rows with
  | nil => exact List.Sublist.refl _
  | cons r rest ih =>
    simp only [dropDupKeepLast]
    by_cases hany :
        rest.any (fun r2 => decide (keyTupleOf r2 keys = keyTupleOf r keys))
    · rw [if_pos hany]; exact ih.cons _
    · rw [if_neg hany]; exact ih.cons₂ _

/-- Claim C4: `deduplicate` keeps, among rows sharing an identical key
tuple, exactly the last occurrence in input order (with all its field
values), removing every earlier one while preserving the input order of the
kept rows; an empty key list or empty input is returned unchanged. -/
theorem deduplicate_keep_last :
    (∀ rows, deduplicate rows [] = rows)
    ∧ (∀ keys, deduplicate [] keys = [])
    ∧ (∀ rows keys, (deduplicate rows keys).Sublist rows)
    ∧ (∀ rows (keys : List String) k, keys ≠ [] →
        (deduplicate rows keys).filter
            (fun r => decide (keyTupleOf r keys = k))
          = (lastWithKey keys k rows).toList) := by
  refine ⟨fun rows => by simp [deduplicate], fun keys => by simp [deduplicate],
    ?_, ?_⟩
  · intro rows keys
    by_cases h : keys.isEmpty || rows.isEmpty
    · rw [deduplicate, if_pos h]
    · rw [deduplicate, if_neg h]
      exact dropDup_sublist keys rows
  · intro rows keys k hkeys
    have hne : keys.isEmpty = false := by
      cases keys with
      | nil => exact absurd rfl hkeys
      | cons a l => rfl
    cases rows with
    | nil => simp [deduplicate, lastWithKey]
    | cons r rest =>
      rw [deduplicate]
      rw [if_neg (by simp [hne])]
      exact dropDup_filter keys k (r :: rest)

/-- Two rows sharing key `account_id = 1`: dedup keeps exactly the
second row's field values. -/
def dedupRowsEx : List LineRow :=
  [[("account_id", JVal.num 1), ("balance", JVal.num 10)],
   [("account_id", JVal.num 1), ("balance", JVal.num 20)],
   [("account_id", JVal.num 2), ("balance", JVal.num 5)]]

/-- Witness for C4: on `dedupRowsEx` with key `account_id`, the surviving
row with key tuple `[some 1]` is the later one. -/
theorem deduplicate_keep_last_witness :
    (["account_id"] : List String) ≠ []
    ∧ (deduplicate dedupRowsEx ["account_id"]).filter
          (fun r => decide (keyTupleOf r ["account_id"] = [some (JVal.num 1)]))
        = (lastWithKey ["account_id"] [some (JVal.num 1)] dedupRowsEx).toList :=
  ⟨by decide,
   deduplicate_keep_last.2.2.2 dedupRowsEx ["account_id"]
     [some (JVal.num 1)] (by decide)⟩

/-- The entity-extraction loop visits every table, in order. -/
theorem extractEntitiesGo_tables (queryAll : String → Except String (List JVal))
    (getCompanyInfo : Except String JVal) :
    ∀ ts, (extractEntitiesGo queryAll getCompanyInfo ts).1.map Prod.fst = ts := by
  intro ts
  induction ts with
  | nil => rfl
  | cons t rest ih => simp [extractEntitiesGo, ih]

/-- A failed table fetch yields an empty result set for that table and a log
line naming the table; a successful one yields its records. -/
theorem extractEntitiesGo_isolated (queryAll : String → Except String (List JVal))
    (getCompanyInfo : Except String JVal) :
    ∀ ts, ts.Nodup → ∀ t, t ∈ ts → t ≠ "CompanyInfo" →
      (∀ e, queryAll t = .error e →
        lookupTable (extractEntitiesGo queryAll getCompanyInfo ts).1 t = some []
        ∧ ("Failed to extract " ++ t ++ ": " ++ e)
            ∈ (extractEntitiesGo queryAll getCompanyInfo ts).2)
      ∧ (∀ records, queryAll t = .ok records →
        lookupTable (extractEntitiesGo queryAll getCompanyInfo ts).1 t
          = some records) := by
  intro ts
  induction ts with
  | nil => intro _ t ht; simp at ht
  | cons t0 rest ih =>
    intro hnd t ht hci
    have hnd0 : t0 ∉ rest := (List.nodup_cons.mp hnd).1
    have hndr : rest.Nodup := (List.nodup_cons.mp hnd).2
    rcases List.mem_cons.mp ht with rfl | hmem
    · constructor
      · intro e he
        simp only [extractEntitiesGo]
        rw [if_neg hci, he]
        constructor
        · simp [lookupTable]
        · simp
      · intro records hr
        simp only [extractEntitiesGo]
        rw [if_neg hci, hr]
        simp [lookupTable]
    · have hne : t ≠ t0 := fun hh => hnd0 (hh ▸ hmem)
      have ihh := ih hndr t hmem hci
      constructor
      · intro e he
        simp only [extractEntitiesGo]
        constructor
        · simp only [lookupTable]
          rw [if_neg (fun hh => hne hh.symm)]
          exact (ihh.1 e he).1
        · have := (ihh.1 e he).2
          simp only [List.mem_cons, List.mem_append]
          right; right
          exact this
      · intro records hr
        simp only [extractEntitiesGo, lookupTable]
        rw [if_neg (fun hh => hne hh.symm)]
        exact ihh.2 records hr

/-- The report-extraction loop visits every report, in order. -/
theorem extractReportsGo_reports (getReport : String → Except String JVal) :
    ∀ rs, (extractReportsGo getReport rs).1.map Prod.fst = rs := by
  intro rs
  induction rs with
  | nil => rfl
  | cons r rest ih => simp [extractReportsGo, ih]

/-- A failed report fetch yields the empty dict for that report and a log
line naming the report; a successful one yields its payload. -/
theorem extractReportsGo_isolated (getReport : String → Except String JVal) :
    ∀ rs, rs.Nodup → ∀ rname, rname ∈ rs →
      (∀ e, getReport rname = .error e →
        lookupTable (extractReportsGo getReport rs).1 rname = some (.obj [])
        ∧ ("Failed to extract report " ++ rname ++ ": " ++ e)
            ∈ (extractReportsGo getReport rs).2)
      ∧ (∀ payload, getReport rname = .ok payload →
        lookupTable (extractReportsGo getReport rs).1 rname = some payload) := by
  intro rs
  induction rs with
  | nil => intro _ rname h; simp at h
  | cons r0 rest ih =>
    intro hnd rname hr
    have hnd0 : r0 ∉ rest := (List.nodup_cons.mp hnd).1
    have hndr : rest.Nodup := (List.nodup_cons.mp hnd).2
    rcases List.mem_cons.mp hr with rfl | hmem
    · constructor
      · intro e he
        simp only [extractReportsGo]
        rw [he]
        exact ⟨by simp [lookupTable], by simp⟩
      · intro payload hp
        simp only [extractReportsGo]
        rw [hp]
        simp [lookupTable]
    · have hne : rname ≠ r0 := fun hh => hnd0 (hh ▸ hmem)
      have ihh := ih hndr rname hmem
      constructor
      · intro e he
        simp only [extractReportsGo]
        constructor
        · simp only [lookupTable]
          rw [if_neg (fun hh => hne hh.symm)]
          exact (ihh.1 e he).1
        · simp only [List.mem_cons, List.mem_append]
          right; right
          exact (ihh.1 e he).2
      · intro payload hp
        simp only [extractReportsGo, lookupTable]
        rw [if_neg (fun hh => hne hh.symm)]
        exact ihh.2 payload hp

/-- Claim C7: a failure fetching one entity table or report endpoint is
caught, logged with the table/report identity, and replaced by an empty
result set for that table/report only; every declared table/report still
appears in the run's results, and successful ones keep their data. -/
theorem extract_failure_isolated :
    (∀ queryAll getCompanyInfo,
      (extract_all_entities queryAll getCompanyInfo).1.map Prod.fst
        = ENTITY_TABLES)
    ∧ (∀ queryAll getCompanyInfo t e, t ∈ ENTITY_TABLES →
        t ≠ "CompanyInfo" → queryAll t = .error e →
        lookupTable (extract_all_entities queryAll getCompanyInfo).1 t = some []
        ∧ ("Failed to extract " ++ t ++ ": " ++ e)
            ∈ (extract_all_entities queryAll getCompanyInfo).2)
    ∧ (∀ queryAll getCompanyInfo t records, t ∈ ENTITY_TABLES →
        t ≠ "CompanyInfo" → queryAll t = .ok records →
        lookupTable (extract_all_entities queryAll getCompanyInfo).1 t
          = some records)
    ∧ (∀ getReport,
        (extract_all_reports getReport).1.map Prod.fst = REPORT_ENDPOINT_NAMES)
    ∧ (∀ getReport rname e, rname ∈ REPORT_ENDPOINT_NAMES →
        getReport rname = .error e →
        lookupTable (extract_all_reports getReport).1 rname = some (.obj [])
        ∧ ("Failed to extract report " ++ rname ++ ": " ++ e)
            ∈ (extract_all_reports getReport).2)
    ∧ (∀ getReport rname payload, rname ∈ REPORT_ENDPOINT_NAMES →
        getReport rname = .ok payload →
        lookupTable (extract_all_reports getReport).1 rname = some payload) := by
  have hent : ENTITY_TABLES.Nodup := by decide
  have hrep : REPORT_ENDPOINT_NAMES.Nodup := by decide
  refine ⟨?_, ?_, ?_, ?_, ?_, ?_⟩
  · intro qa gci; exact extractEntitiesGo_tables qa gci ENTITY_TABLES
  · intro qa gci t e hmem hci he
    exact (extractEntitiesGo_isolated qa gci ENTITY_TABLES hent t hmem hci).1 e he
  · intro qa gci t records hmem hci hr
    exact (extractEntitiesGo_isolated qa gci ENTITY_TABLES hent t hmem hci).2
      records hr
  · intro gr; exact extractReportsGo_reports gr REPORT_ENDPOINT_NAMES
  · intro gr rname e hmem he
    exact (extractReportsGo_isolated gr REPORT_ENDPOINT_NAMES hrep rname hmem).1
      e he
  · intro gr rname payload hmem hp
    exact (extractReportsGo_isolated gr REPORT_ENDPOINT_NAMES hrep rname hmem).2
      payload hp

/-- A fetcher that fails on `Invoice` only. -/
def queryAllEx : String → Except String (List JVal) :=
  fun t => if t = "Invoice" then .error "HTTP 503" else .ok []

/-- Witness for C7: with a fetcher that fails on `Invoice`, that table's
result is empty, the failure is logged with the table name, and a
succeeding table keeps its records. -/
theorem extract_failure_isolated_witness :
    ("Invoice" ∈ ENTITY_TABLES ∧ "Invoice" ≠ "CompanyInfo"
      ∧ queryAllEx "Invoice" = .error "HTTP 503")
    ∧ (lookupTable (extract_all_entities queryAllEx (.ok (.obj []))).1 "Invoice"
          = some []
        ∧ "Failed to extract Invoice: HTTP 503"
            ∈ (extract_all_entities queryAllEx (.ok (.obj []))).2)
    ∧ lookupTable (extract_all_entities queryAllEx (.ok (.obj []))).1 "Customer"
        = some [] := by
  refine ⟨⟨by decide, by decide, rfl⟩, ?_, ?_⟩
  · exact extract_failure_isolated.2.1 queryAllEx (.ok (.obj []))
      "Invoice" "HTTP 503" (by decide) (by decide) rfl
  · exact extract_failure_isolated.2.2.1 queryAllEx (.ok (.obj []))
      "Customer" [] (by decide) (by decide) rfl

/-- Positional alignment truncates to the shorter of titles and cells. -/
theorem alignCells_length :
    ∀ (colNames : List String) (colData : List RCell),
      (alignCells colNames colData).length
        = min colNames.length colData.length := by
  intro colNames colData
  simp [alignCells]

/-- The aligned columns in one row are exactly the first
`min titles cells` declared titles, in order: a cell beyond the titles is
skipped, a title beyond the cells is absent. -/
theorem alignCells_keys :
    ∀ (colNames : List String) (colData : List RCell),
      (alignCells colNames colData).map Prod.fst
        = colNames.take colData.length := by
  intro colNames
  induction colNames with
  | nil => intro colData; simp [alignCells]
  | cons n rest ih =>
    intro colData
    cases colData with
    | nil => simp [alignCells]
    | cons c cs =>
      simpa [alignCells, List.zip_cons_cons] using ih cs

/-- Index-wise content of the aligned columns. -/
theorem alignCells_get? :
    ∀ (colNames : List String) (colData : List RCell) (i : Nat),
      (alignCells colNames colData).get? i
        = (colNames.get? i).bind fun n =>
            (colData.get? i).map fun c => (n, c.value.getD "") := by
  intro colNames
  induction colNames with
  | nil => intro colData i; simp [alignCells]
  | cons n rest ih =>
    intro colData i
    cases colData with
    | nil => simp [alignCells]
    | cons c cs =>
      cases i with
      | zero => simp [alignCells]
      | succ j => simpa [alignCells, List.zip_cons_cons] using ih cs j

/-- Assigning a fresh key into a Python dict appends it. -/
theorem setKey_append_of_not_mem (d : List (String × String)) (k : String)
    (v : String) (h : ∀ p ∈ d, p.1 ≠ k) : setKey d k v = d ++ [(k, v)] := by
  have hf : (d.find? fun p => p.1 = k) = none := by
    rw [List.find?_eq_none]
    intro p hp
    simpa using h p hp
  simp [setKey, hf]

/-- Building a Python dict from pairs with pairwise-distinct keys keeps the
pairs unchanged. -/
theorem dictOfPairs_of_nodup :
    ∀ (ps acc : List (String × String)),
      ((acc.map Prod.fst) ++ ps.map Prod.fst).Nodup →
      ps.foldl (fun a p => setKey a p.1 p.2) acc = acc ++ ps := by
  intro ps
  induction ps with
  | nil => intro acc _; simp
  | cons p rest ih =>
    intro acc hnd
    have hk : ∀ q ∈ acc, q.1 ≠ p.1 := by
      intro q hq hqk
      have h1 : q.1 ∈ acc.map Prod.fst := List.mem_map_of_mem _ hq
      have h2 : p.1 ∈ p.1 :: rest.map Prod.fst := List.mem_cons_self _ _
      have := List.disjoint_of_nodup_append hnd
      exact this h1 (hqk ▸ h2)
    have hstep : setKey acc p.1 p.2 = acc ++ [(p.1, p.2)] :=
      setKey_append_of_not_mem acc p.1 p.2 hk
    have hnd2 : (((acc ++ [(p.1, p.2)]).map Prod.fst)
        ++ rest.map Prod.fst).Nodup := by
      simpa [List.append_assoc] using hnd
    calc (p :: rest).foldl (fun a q => setKey a q.1 q.2) acc
        = rest.foldl (fun a q => setKey a q.1 q.2) (acc ++ [(p.1, p.2)]) := by
          simp [List.foldl_cons, hstep]
      _ = (acc ++ [(p.1, p.2)]) ++ rest := ih _ hnd2
      _ = acc ++ p :: rest := by simp

/-- Claim C6: report `Data` and `Summary` rows align cells positionally to
the declared titles — the row's value columns are exactly the first
`min titles cells` titles with their cells, cells beyond the titles are
silently skipped, titles beyond the cells are simply absent — and the row
is always emitted (the flattener is total, no mismatch is an error). -/
theorem column_alignment_truncation :
    (∀ (colNames : List String) (colData : List RCell),
      (alignCells colNames colData).length
        = min colNames.length colData.length)
    ∧ (∀ (colNames : List String) (colData : List RCell),
      (alignCells colNames colData).map Prod.fst
        = colNames.take colData.length)
    ∧ (∀ (colNames : List String) (colData : List RCell) (i : Nat),
      (alignCells colNames colData).get? i
        = (colNames.get? i).bind fun n =>
            (colData.get? i).map fun c => (n, c.value.getD ""))
    ∧ (∀ (colNames : List String) (colData : List RCell), colNames.Nodup →
      dictOfPairs (alignCells colNames colData) = alignCells colNames colData)
    ∧ (∀ header subRows summary (colData : List RCell) colNames reportName
        sectionCtx,
      extractNode colNames reportName
          (RNode.mk "Data" header subRows summary (some colData)) sectionCtx
        = [⟨dictOfPairs (alignCells colNames colData), sectionCtx, "Data",
            reportName⟩])
    ∧ (∀ (s : List RCell) sname colNames reportName,
      summaryRowsOf (some s) sname colNames reportName
        = [⟨dictOfPairs (alignCells colNames s), sname, "Summary",
            reportName⟩]) := by
  refine ⟨alignCells_length, alignCells_keys, alignCells_get?, ?_, ?_, ?_⟩
  · intro colNames colData hnd
    have hkeys := alignCells_keys colNames colData
    have hnd2 : (([] : List (String × String)).map Prod.fst
        ++ (alignCells colNames colData).map Prod.fst).Nodup := by
      rw [hkeys]
      simpa using (List.take_sublist _ _).nodup hnd
    simpa [dictOfPairs] using
      dictOfPairs_of_nodup (alignCells colNames colData) [] hnd2
  · intro header subRows summary colData colNames reportName sectionCtx
    simp only [extractNode]
    rw [if_neg (by decide)]
    simp
  · intro s sname colNames reportName
    rfl

/-- Witness for C6 at two titles against one cell: the second declared
title is absent from the emitted columns. -/
theorem column_alignment_truncation_witness :
    (["Account", "Total"] : List String).Nodup
    ∧ dictOfPairs (alignCells ["Account", "Total"] [⟨some "Cash"⟩])
        = alignCells ["Account", "Total"] [⟨some "Cash"⟩]
    ∧ (alignCells ["Account", "Total"] [⟨some "Cash"⟩]).map Prod.fst
        = ["Account"] :=
  ⟨by decide,
   column_alignment_truncation.2.2.2.1 ["Account", "Total"] [⟨some "Cash"⟩]
     (by decide),
   by decide⟩

/-- The spec's concrete scenario: a Balance Sheet with one top-level
section `Assets` holding one `Data` row (`Cash`, 1000) and a `Summary` row
(`Total Assets`, 1000). -/
def assetsTreeEx : ReportData where
  reportName := some "BalanceSheet"
  columns := [⟨some "Account"⟩, ⟨some "Total"⟩]
  rows := [RNode.mk "Section" (some [⟨some "Assets"⟩])
    [RNode.mk "Data" none [] none (some [⟨some "Cash"⟩, ⟨some "1000"⟩])]
    (some [⟨some "Total Assets"⟩, ⟨some "1000"⟩]) none]

/-- Claim C1: a section node that carries a summary row emits exactly one
`Summary`-tagged row carrying the section's own name (its header's first
cell, empty string if absent), placed after all rows produced from the
section's descendants, which are themselves processed under the section's
name as context; a `Data` node emits one `Data`-tagged row carrying the
inherited section context, and the top-level context is the empty string. -/
theorem summary_after_descendant_rows :
    (∀ header subRows (s : List RCell) colData colNames reportName sectionCtx
        rest,
      extractList colNames reportName
          (RNode.mk "Section" header subRows (some s) colData :: rest)
          sectionCtx
        = extractList colNames reportName subRows (sectionNameOf header)
          ++ (⟨dictOfPairs (alignCells colNames s), sectionNameOf header,
              "Summary", reportName⟩ : ReportRow)
            :: extractList colNames reportName rest sectionCtx)
    ∧ (∀ header subRows summary colData colNames reportName sectionCtx rest,
      extractList colNames reportName
          (RNode.mk "Data" header subRows summary colData :: rest) sectionCtx
        = (⟨dictOfPairs (alignCells colNames (colData.getD [])), sectionCtx,
            "Data", reportName⟩ : ReportRow)
          :: extractList colNames reportName rest sectionCtx)
    ∧ (∀ rd, flatten_report_rows (some rd)
        = extractList (colNamesOf rd.columns) (rd.reportName.getD "Unknown")
            rd.rows "")
    ∧ flatten_report_rows (some assetsTreeEx)
        = [⟨[("Account", "Cash"), ("Total", "1000")], "Assets", "Data",
            "BalanceSheet"⟩,
           ⟨[("Account", "Total Assets"), ("Total", "1000")], "Assets",
            "Summary", "BalanceSheet"⟩] := by
  refine ⟨?_, ?_, fun rd => rfl, by decide⟩
  · intro header subRows s colData colNames reportName sectionCtx rest
    simp only [extractList, extractNode, summaryRowsOf]
    simp
  · intro header subRows summary colData colNames reportName sectionCtx rest
    simp only [extractList, extractNode]
    rw [if_neg (by decide)]
    simp

/-- A subtotal/discount discriminant is not one of the expense detail
discriminants the bill/purchase dispatch recognizes. -/
theorem isSkip_ne_expense (dt : JVal) (h : isSkipDetailType dt = true) :
    dt ≠ JVal.str "ItemBasedExpenseLineDetail"
    ∧ dt ≠ JVal.str "AccountBasedExpenseLineDetail" := by
  cases dt <;> simp [isSkipDetailType] at h ⊢
  rcases h with h | h <;> simp [h]

/-- The spec's concrete scenario: an invoice with a `SalesItemLineDetail`
line, a `SubTotalLineDetail` line, and another `SalesItemLineDetail` line. -/
def invoiceThreeLinesEx : JVal := .obj [("Id", .str "101"), ("Line", .arr [
  .obj [("Id", .str "1"), ("DetailType", .str "SalesItemLineDetail"),
        ("Amount", .num 50)],
  .obj [("DetailType", .str "SubTotalLineDetail"), ("Amount", .num 80)],
  .obj [("Id", .str "3"), ("DetailType", .str "SalesItemLineDetail"),
        ("Amount", .num 30)]])]

/-- Claim C3: a line whose discriminant marks it as non-data
(`SubTotalLineDetail` or `DiscountLineDetail`) produces zero output rows in
the invoice, estimate, bill, and purchase flatteners; the three-line
invoice scenario flattens to exactly its two `SalesItemLineDetail` rows. -/
theorem non_data_lines_skipped :
    (∀ (parentId : JVal) (fs : List (String × JVal)),
      isSkipDetailType ((lookupKey fs "DetailType").getD (.str "")) = true →
      flattenInvoiceLine parentId (.obj fs) = .ok none
      ∧ flattenEstimateLine parentId (.obj fs) = .ok none
      ∧ flattenBillLine parentId (.obj fs) = .ok none
      ∧ flattenPurchaseLine parentId (.obj fs) = .ok none)
    ∧ (flatten_invoice_lines [invoiceThreeLinesEx]).map List.length
        = .ok 2 := by
  constructor
  · intro parentId fs h
    obtain ⟨h1, h2⟩ := isSkip_ne_expense _ h
    refine ⟨?_, ?_, ?_, ?_⟩
    · simp [flattenInvoiceLine, dget, h, Bind.bind, Except.bind, Pure.pure,
        Except.pure]
    · simp [flattenEstimateLine, dget, h, Bind.bind, Except.bind, Pure.pure,
        Except.pure]
    · simp [flattenBillLine, dget, h1, h2, Bind.bind, Except.bind, Pure.pure,
        Except.pure]
    · simp [flattenPurchaseLine, dget, h1, h2, Bind.bind, Except.bind,
        Pure.pure, Except.pure]
  · rfl

/-- Witness for C3 at a concrete subtotal line. -/
theorem non_data_lines_skipped_witness :
    isSkipDetailType
        ((lookupKey [("DetailType", JVal.str "SubTotalLineDetail"),
          ("Amount", JVal.num 80)] "DetailType").getD (.str "")) = true
    ∧ flattenInvoiceLine (JVal.str "101")
        (.obj [("DetailType", JVal.str "SubTotalLineDetail"),
          ("Amount", JVal.num 80)]) = .ok none
    ∧ flattenBillLine (JVal.str "101")
        (.obj [("DetailType", JVal.str "SubTotalLineDetail"),
          ("Amount", JVal.num 80)]) = .ok none :=
  ⟨by decide,
   (non_data_lines_skipped.1 (JVal.str "101")
     [("DetailType", JVal.str "SubTotalLineDetail"), ("Amount", JVal.num 80)]
     (by decide)).1,
   (non_data_lines_skipped.1 (JVal.str "101")
     [("DetailType", JVal.str "SubTotalLineDetail"), ("Amount", JVal.num 80)]
     (by decide)).2.2.1⟩

/-- Claim C10: unrecognized line discriminants are treated asymmetrically.
For invoice and estimate parents a line whose `DetailType` is neither
`SalesItemLineDetail` nor subtotal/discount (and which carries no sales
detail object) still emits one row whose item/quantity/price columns are
null; for bill and purchase parents a line whose `DetailType` is neither
`ItemBasedExpenseLineDetail` nor `AccountBasedExpenseLineDetail` emits no
row at all. -/
theorem unknown_discriminant_asymmetry :
    (∀ (parentId : JVal) (fs : List (String × JVal)),
      isSkipDetailType ((lookupKey fs "DetailType").getD (.str "")) = false →
      (lookupKey fs "DetailType").getD (.str "")
        ≠ .str "SalesItemLineDetail" →
      lookupKey fs "SalesItemLineDetail" = none →
      lookupKey fs "LinkedTxn" = none →
      ∃ row, flattenInvoiceLine parentId (.obj fs) = .ok (some row)
        ∧ lookupKey row "item_id" = some .null
        ∧ lookupKey row "item_name" = some .null
        ∧ lookupKey row "quantity" = some .null
        ∧ lookupKey row "unit_price" = some .null)
    ∧ (∀ (parentId : JVal) (fs : List (String × JVal)),
      isSkipDetailType ((lookupKey fs "DetailType").getD (.str "")) = false →
      (lookupKey fs "DetailType").getD (.str "")
        ≠ .str "SalesItemLineDetail" →
      lookupKey fs "SalesItemLineDetail" = none →
      ∃ row, flattenEstimateLine parentId (.obj fs) = .ok (some row)
        ∧ lookupKey row "item_id" = some .null
        ∧ lookupKey row "item_name" = some .null
        ∧ lookupKey row "quantity" = some .null
        ∧ lookupKey row "unit_price" = some .null)
    ∧ (∀ (parentId : JVal) (fs : List (String × JVal)),
      (lookupKey fs "DetailType").getD (.str "")
          ≠ .str "ItemBasedExpenseLineDetail" →
      (lookupKey fs "DetailType").getD (.str "")
          ≠ .str "AccountBasedExpenseLineDetail" →
      flattenBillLine parentId (.obj fs) = .ok none
      ∧ flattenPurchaseLine parentId (.obj fs) = .ok none) := by
  refine ⟨?_, ?_, ?_⟩
  · intro parentId fs hskip _ hdet hlink
    refine ⟨[("invoice_id", parentId),
      ("line_id", (lookupKey fs "Id").getD .null),
      ("line_num", (lookupKey fs "LineNum").getD .null),
      ("description", (lookupKey fs "Description").getD .null),
      ("amount", (lookupKey fs "Amount").getD .null),
      ("quantity", .null), ("unit_price", .null), ("item_id", .null),
      ("item_name", .null), ("account_id", .null), ("account_name", .null),
      ("tax_code_ref", .null), ("service_date", .null),
      ("detail_type", (lookupKey fs "DetailType").getD (.str "")),
      ("linked_txn_id", .null), ("linked_txn_type", .null)],
      ?_, rfl, rfl, rfl, rfl⟩
    simp [flattenInvoiceLine, dget, hskip, hdet, hlink, truthy, Bind.bind,
      Except.bind, Pure.pure, Except.pure, lookupKey]
  · intro parentId fs hskip _ hdet
    refine ⟨[("estimate_id", parentId),
      ("line_id", (lookupKey fs "Id").getD .null),
      ("line_num", (lookupKey fs "LineNum").getD .null),
      ("description", (lookupKey fs "Description").getD .null),
      ("amount", (lookupKey fs "Amount").getD .null),
      ("quantity", .null), ("unit_price", .null), ("item_id", .null),
      ("item_name", .null), ("account_id", .null), ("account_name", .null),
      ("tax_code_ref", .null),
      ("detail_type", (lookupKey fs "DetailType").getD (.str ""))],
      ?_, rfl, rfl, rfl, rfl⟩
    simp [flattenEstimateLine, dget, hskip, hdet, Bind.bind,
      Except.bind, Pure.pure, Except.pure, lookupKey]
  · intro parentId fs h1 h2
    constructor
    · simp [flattenBillLine, dget, h1, h2, Bind.bind, Except.bind, Pure.pure,
        Except.pure]
    · simp [flattenPurchaseLine, dget, h1, h2, Bind.bind, Except.bind,
        Pure.pure, Except.pure]

/-- Witness for C10 at a `DescriptionOnly` line: one null-detail row for an
invoice, no row for a bill. -/
theorem unknown_discriminant_asymmetry_witness :
    (isSkipDetailType
        ((lookupKey [("DetailType", JVal.str "DescriptionOnly")]
          "DetailType").getD (.str "")) = false
      ∧ (∃ row, flattenInvoiceLine (JVal.str "7")
          (.obj [("DetailType", JVal.str "DescriptionOnly")])
            = .ok (some row)
          ∧ lookupKey row "item_id" = some .null
          ∧ lookupKey row "item_name" = some .null
          ∧ lookupKey row "quantity" = some .null
          ∧ lookupKey row "unit_price" = some .null))
    ∧ flattenBillLine (JVal.str "7")
        (.obj [("DetailType", JVal.str "DescriptionOnly")]) = .ok none
    ∧ flattenPurchaseLine (JVal.str "7")
        (.obj [("DetailType", JVal.str "DescriptionOnly")]) = .ok none :=
  ⟨⟨by decide,
    unknown_discriminant_asymmetry.1 (JVal.str "7")
      [("DetailType", JVal.str "DescriptionOnly")]
      (by decide) (by decide) (by decide) (by decide)⟩,
   (unknown_discriminant_asymmetry.2.2 (JVal.str "7")
      [("DetailType", JVal.str "DescriptionOnly")]
      (by decide) (by decide)).1,
   (unknown_discriminant_asymmetry.2.2 (JVal.str "7")
      [("DetailType", JVal.str "DescriptionOnly")]
      (by decide) (by decide)).2⟩

/-- Counterexample to claim C5: an invoice whose single line carries a
linked-transaction entry missing its `TxnId` field makes
`flatten_invoice_lines` raise a `KeyError` (`linked[0]["TxnId"]` is a
bracket access, not a defensive `.get`), aborting the whole batch instead
of degrading to null. -/
theorem linked_txn_missing_id_aborts_batch :
    flatten_invoice_lines [JVal.obj [("Id", .str "1"), ("Line", .arr
      [.obj [("DetailType", .str "SalesItemLineDetail"),
             ("Amount", .num 5), ("LinkedTxn", .arr [.obj []])]])]]
      = .error "KeyError: TxnId" := by
  rfl

/-- A raw field that is either absent or stored as JSON null. -/
def absentOrNull (fs : List (String × JVal)) (k : String) : Prop :=
  lookupKey fs k = none ∨ lookupKey fs k = some .null

/-- Claim C5 (amended): in the record mappers a nested reference field that
is absent or null yields null for every derived sub-field without raising;
in the line flatteners an absent detail object yields null detail columns,
but the defensive reading stops there — a present-but-null detail object
raises, and (per the counterexample) a linked-transaction entry missing its
id aborts the containing batch. -/
theorem defensive_nested_refs_amended :
    (∀ fs : List (String × JVal),
      absentOrNull fs "BillAddr" → absentOrNull fs "PrimaryEmailAddr" →
      absentOrNull fs "PrimaryPhone" → absentOrNull fs "ParentRef" →
      ∃ row, mapCustomerRecord (.obj fs) = .ok row
        ∧ lookupKey row "email" = some .null
        ∧ lookupKey row "phone" = some .null
        ∧ lookupKey row "billing_city" = some .null
        ∧ lookupKey row "billing_state" = some .null
        ∧ lookupKey row "billing_postal_code" = some .null
        ∧ lookupKey row "parent_customer_id" = some .null)
    ∧ (∀ (parentId : JVal) (fs : List (String × JVal)),
      isSkipDetailType ((lookupKey fs "DetailType").getD (.str "")) = false →
      lookupKey fs "SalesItemLineDetail" = none →
      lookupKey fs "LinkedTxn" = none →
      ∃ row, flattenInvoiceLine parentId (.obj fs) = .ok (some row)
        ∧ lookupKey row "item_id" = some .null
        ∧ lookupKey row "quantity" = some .null
        ∧ lookupKey row "unit_price" = some .null
        ∧ lookupKey row "tax_code_ref" = some .null)
    ∧ flattenInvoiceLine .null (.obj [("DetailType", .str "DescriptionOnly"),
        ("SalesItemLineDetail", JVal.null)]) = .error "AttributeError: get" := by
  refine ⟨?_, ?_, by rfl⟩
  · intro fs hb he hp hpr
    refine ⟨[("customer_id", (lookupKey fs "Id").getD .null),
      ("display_name", (lookupKey fs "DisplayName").getD .null),
      ("company_name", (lookupKey fs "CompanyName").getD .null),
      ("given_name", (lookupKey fs "GivenName").getD .null),
      ("family_name", (lookupKey fs "FamilyName").getD .null),
      ("email", .null), ("phone", .null), ("billing_city", .null),
      ("billing_state", .null), ("billing_postal_code", .null),
      ("is_job", (lookupKey fs "Job").getD (.bool false)),
      ("is_active", (lookupKey fs "Active").getD (.bool true)),
      ("balance", (lookupKey fs "Balance").getD (.num 0)),
      ("parent_customer_id", .null)], ?_, rfl, rfl, rfl, rfl, rfl, rfl⟩
    rcases hb with hb | hb <;> rcases he with he | he <;>
      rcases hp with hp | hp <;> rcases hpr with hpr | hpr <;>
      simp [mapCustomerRecord, dget, hb, he, hp, hpr, pyOr, truthy,
        Bind.bind, Except.bind, Pure.pure, Except.pure, lookupKey]
  · intro parentId fs hskip hdet hlink
    refine ⟨[("invoice_id", parentId),
      ("line_id", (lookupKey fs "Id").getD .null),
      ("line_num", (lookupKey fs "LineNum").getD .null),
      ("description", (lookupKey fs "Description").getD .null),
      ("amount", (lookupKey fs "Amount").getD .null),
      ("quantity", .null), ("unit_price", .null), ("item_id", .null),
      ("item_name", .null), ("account_id", .null), ("account_name", .null),
      ("tax_code_ref", .null), ("service_date", .null),
      ("detail_type", (lookupKey fs "DetailType").getD (.str "")),
      ("linked_txn_id", .null), ("linked_txn_type", .null)],
      ?_, rfl, rfl, rfl, rfl⟩
    simp [flattenInvoiceLine, dget, hskip, hdet, hlink, truthy, Bind.bind,
      Except.bind, Pure.pure, Except.pure, lookupKey]

/-- Witness for the amended C5: a customer record whose `BillAddr` is null
and whose other reference fields are absent maps to a row with null derived
sub-fields; a detail-less line flattens with null detail columns. -/
theorem defensive_nested_refs_amended_witness :
    (absentOrNull [("Id", JVal.str "9"), ("BillAddr", JVal.null)] "BillAddr"
      ∧ absentOrNull [("Id", JVal.str "9"), ("BillAddr", JVal.null)]
          "PrimaryEmailAddr"
      ∧ absentOrNull [("Id", JVal.str "9"), ("BillAddr", JVal.null)]
          "PrimaryPhone"
      ∧ absentOrNull [("Id", JVal.str "9"), ("BillAddr", JVal.null)]
          "ParentRef")
    ∧ (∃ row, mapCustomerRecord
          (.obj [("Id", JVal.str "9"), ("BillAddr", JVal.null)]) = .ok row
        ∧ lookupKey row "email" = some .null
        ∧ lookupKey row "phone" = some .null
        ∧ lookupKey row "billing_city" = some .null
        ∧ lookupKey row "billing_state" = some .null
        ∧ lookupKey row "billing_postal_code" = some .null
        ∧ lookupKey row "parent_customer_id" = some .null) :=
  ⟨⟨Or.inr (by decide), Or.inl (by decide), Or.inl (by decide),
    Or.inl (by decide)⟩,
   defensive_nested_refs_amended.1
     [("Id", JVal.str "9"), ("BillAddr", JVal.null)]
     (Or.inr (by decide)) (Or.inl (by decide)) (Or.inl (by decide))
     (Or.inl (by decide))⟩
